import Mathlib

/-!
Shallow embedding of the `iara-api-modelo-ia` service (FastAPI wrapper around a
generative-AI model): `src/main.py` and `src/scheduler/routes/health_router.py`.

Python-level conventions of the embedding:
* A PIL image is modelled by its pixel dimensions (`Img`); a crop box follows
  PIL semantics `(left, upper, right, lower)`, covering pixels with
  `left ≤ x < right`, `upper ≤ y < lower`.
* Exceptions are modelled with `Except String` / `Option String` fault
  parameters; exception message texts are modelled abstractly where Python
  formats them internally.
* The external model call `model.generate_content([PROMPT_FIXO, parte])` is an
  opaque parameter `String → Box → ModelOutcome`: it either returns response
  text (possibly empty) or raises.
-/

namespace Abaco

/-- An in-memory PIL image, modelled by its size (`imagem.size` in the code). -/
structure Img where
  width : Nat
  height : Nat
deriving Repr, DecidableEq

/-- A PIL crop box `(left, upper, right, lower)`: the sub-image of pixels
`left ≤ x < right`, `upper ≤ y < lower` of the original image. -/
structure Box where
  left : Nat
  upper : Nat
  right : Nat
  lower : Nat
deriving Repr, DecidableEq

/-- Pixel area of a crop box. -/
def Box.area (b : Box) : Nat := (b.right - b.left) * (b.lower - b.upper)

/-- Does pixel `(x, y)` of the original image fall inside crop box `b`? -/
def Box.containsPix (b : Box) (x y : Nat) : Bool :=
  decide (b.left ≤ x ∧ x < b.right ∧ b.upper ≤ y ∧ y < b.lower)

/-- `dividir_imagem` from `src/main.py`: splits the image into parts depending
on its size.  The `else` branch returns the unmodified image, represented here
as the full-image box `(0, 0, width, height)`. -/
def dividir_imagem (imagem : Img) : List Box :=
  let width := imagem.width
  let height := imagem.height
  if width > 3000 ∧ height > 3000 then
    [⟨0, 0, width / 2, height / 2⟩,
     ⟨width / 2, 0, width, height / 2⟩,
     ⟨0, height / 2, width / 2, height⟩,
     ⟨width / 2, height / 2, width, height⟩]
  else if width > 2000 then
    [⟨0, 0, width / 2, height⟩,
     ⟨width / 2, 0, width, height⟩]
  else if height > 2000 then
    [⟨0, 0, width, height / 2⟩,
     ⟨0, height / 2, width, height⟩]
  else
    [⟨0, 0, width, height⟩]

/-- `PROMPT_FIXO` from `src/main.py` (the fixed prompt string; `\x2d` is the
hyphen character, written in escaped form). -/
def PROMPT_FIXO : String :=
  "\nSua função é contar por linha os valores para condena parcial e condena total de cada problema em uma indústria aviária.\n"
  ++ "\nPara cada tipo de condena (parcial e total), exitem 3 colunas para realizar a contagem CENTENA (amarelo), DEZENA (azul) e UNIDADE (vermelho), assim você irá realizar a soma, se mexer x vermelhas e y amarela = x*1 + y*10 \n"
  ++ "Cada linha representa uma categoria, informada ao meio da imagem\n"
  ++ "\n### REGRA PARA CONTAGEM\n"
  ++ "Quando um ábaco está zerado, todas as miçangas ficam grudadas juntas. Quando há uma distância entre esse grupo de não movidos com outra miçanga, essa miçanga é considerada como movida. Você precisa ser minucioso, se tudo estiver com valores iguais diferentes de zero, desconfie. Se todas as linhas foram zero, também desconfie. Para ser contada, as miçangas precisam ter uma distância consideravel, não pode ser so um tiquinho. Além disso, eu posso ter mais de uma miçanga movida em uma coluna de um ábaco assim: \n"
  ++ "\n###EXEMPLO\n"
  ++ "......  . ... \x2d\x2d> 4 miçangas foram movidas\n"
  ++ "..........    \x2d\x2d> 0 miçangas foram movidas\n"
  ++ "    ..........\x2d\x2d> 10 miçangas movidas (vejo isso pois quando estavam zeradas, estavam juntas no lado oposto)\n"
  ++ "Uma miçanga ou mais miçangas podem ser consideradas como MOVIDAS quando estão deslocadas , distantes das demais miçangas na esquerda.\n"
  ++ "\n### FUNÇÃO\n"
  ++ "Sua função é contar a quantidade de miçangas movidas por um ser humano em cada linha e retornar os valores de forma estruturada (CSV). Contendo as seguintes colunas.\n"
  ++ "Coluna 1 \x2d Tipo da concena (TOTAL|PARCIAL)\n"
  ++ "Coluna 3 \x2d Categoria (representada ao meio do abaco)\n"
  ++ "Coluna 4 \x2d Quantidade de miçangas MOVIDAS\n"
  ++ "\nIMPORTANTE\n"
  ++ "mande somente as informações pedidas (formato csv), para que eu possa passar isso para um arquivo. NAO PRECISA JUSTIFICAR SUA RESPOSTA\n\n"

/-- Outcome of one `model.generate_content([PROMPT_FIXO, parte])` call:
either a response whose `.text` attribute is `text` (possibly empty), or a
raised exception carrying message `msg` (raised by the call itself or by the
`.text` accessor; both sit inside the per-part `try`). -/
inductive ModelOutcome where
  | ok (text : String)
  | err (msg : String)
deriving Repr, DecidableEq

/-- The `for i, parte in enumerate(partes, start=1)` loop of
`analisar_imagem_pil`.  Returns the trace of model invocations (prompt and
tile of each `generate_content` call, in order) and the `resultados` list:
each iteration makes exactly one model call; on success the text is appended
when non-empty (`if response.text:`), and on exception the line
`"Erro na parte " ++ i ++ ": " ++ msg` is appended. -/
def analisar_loop (model : String → Box → ModelOutcome) :
    Nat → List Box → List (String × Box) × List String
  | _, [] => ([], [])
  | i, parte :: rest =>
    let here : List String :=
      match model PROMPT_FIXO parte with
      | .ok text => if text = "" then [] else [text]
      | .err e => ["Erro na parte " ++ toString i ++ ": " ++ e]
    let tail := analisar_loop model (i + 1) rest
    ((PROMPT_FIXO, parte) :: tail.1, here ++ tail.2)

/-- `analisar_imagem_pil` from `src/main.py`.  `fault` models an exception
raised inside the outer `try` but outside the per-part `try` (e.g. by PIL
while cropping); it is caught by the outer `except` which returns
`"Erro: " ++ str e`.  Model-call exceptions are handled inside
`analisar_loop` and never reach the outer handler. -/
def analisar_imagem_pil (fault : Option String)
    (model : String → Box → ModelOutcome) (imagem : Img) : String :=
  match fault with
  | some e => "Erro: " ++ e
  | none =>
    let partes := dividir_imagem imagem
    let resultados := (analisar_loop model 1 partes).2
    String.intercalate "\n" resultados

/-- A pandas DataFrame, modelled as a list of named columns of cell strings
(only the shape reachable by this code matters: either an opaque parse result
or the one-column `Erro` frame built by the handler). -/
structure DataFrame where
  cols : List (String × List String)
deriving Repr, DecidableEq

/-- An HTTP response produced by the handlers: a `JSONResponse` with a status
code and a flat JSON object of string fields, or a `FileResponse`. -/
inductive HttpResponse where
  | json (status : Nat) (body : List (String × String))
  | fileResponse (path : String) (filename : String) (media_type : String)
deriving Repr, DecidableEq

/-- Validator for the digit part of Python `int(...)`, base 10, after sign:
continuation of a digit string where a single underscore may sit between two
digits. -/
def pyDigitsRest : List Char → Bool
  | [] => true
  | c :: rest =>
    if c.isDigit then pyDigitsRest rest
    else if c = '_' then
      match rest with
      | [] => false
      | d :: rest2 => d.isDigit && pyDigitsRest rest2
    else false

/-- A valid Python base-10 digit sequence: nonempty, starts with a digit. -/
def pyDigitsOk : List Char → Bool
  | [] => false
  | c :: rest => c.isDigit && pyDigitsRest rest

/-- Numeric value of a digit list. -/
def digitsVal (cs : List Char) : Nat :=
  cs.foldl (fun a c => 10 * a + (c.toNat - 48)) 0

/-- Auxiliary for `split_py`: walk the characters, collecting the current
field in reverse in `acc` and emitting it at each separator. -/
def splitAux (sep : Char) : List Char → List Char → List String
  | [], acc => [String.mk acc.reverse]
  | c :: rest, acc =>
    if c = sep then String.mk acc.reverse :: splitAux sep rest []
    else splitAux sep rest (c :: acc)

/-- Python `s.split(sep)` for a one-character separator: split at every
occurrence, keeping empty fields (`"".split(",") == [""]`). -/
def split_py (sep : Char) (s : String) : List String :=
  splitAux sep s.data []

/-- Python `str.strip()` as used implicitly by `int(...)`: drop surrounding
whitespace characters. -/
def trim_py (s : String) : String :=
  String.mk (((s.data.dropWhile Char.isWhitespace).reverse.dropWhile Char.isWhitespace).reverse)

/-- Does the character list start with the given pattern? -/
def leadsWith : List Char → List Char → Bool
  | [], _ => true
  | _ :: _, [] => false
  | p :: ps, c :: cs => (p == c) && leadsWith ps cs

/-- Python `int(s)` for base 10: strips surrounding whitespace, allows one
leading sign, then digits with single underscores between digits; anything
else raises `ValueError` (the message is modelled as the invalid-literal text
without Python's quoting of the repr). -/
def int_py (s : String) : Except String Int :=
  let t := trim_py s
  let (neg, ds) :=
    match t.data with
    | [] => (false, ([] : List Char))
    | c :: rest =>
      if c = '-' then (true, rest)
      else if c = '+' then (false, rest)
      else (false, c :: rest)
  if pyDigitsOk ds then
    let v : Int := Int.ofNat (digitsVal (ds.filter (fun c => c ≠ '_')))
    .ok (if neg then -v else v)
  else
    .error ("invalid literal for int() with base 10: " ++ t)

/-- `lista_cores = colors.split(",") if colors else []` — `None` and the empty
string are falsy; `str.split` never raises. -/
def lista_cores_de (colors : Option String) : List String :=
  match colors with
  | none => []
  | some c => if c = "" then [] else split_py ',' c

/-- `lista_valores = [int(v) for v in values.split(",")] if values else []` —
the comprehension raises at the first entry `int` rejects. -/
def lista_valores_de (values : Option String) : Except String (List Int) :=
  match values with
  | none => .ok []
  | some v => if v = "" then .ok [] else (split_py ',' v).mapM int_py

/-- The inline CSV-conversion block of `analisar_imagem` (`src/main.py`
lines 151-157): try `pd.read_csv` with the default separator (documented by
pandas as `","`), on exception retry with `sep=";"`, on a second exception
build the one-column `Erro` frame. `read_csv` is the opaque pandas parser,
taking the separator and the text. -/
def resultado_para_df (read_csv : String → String → Except String DataFrame)
    (resultado : String) : DataFrame :=
  match read_csv "," resultado with
  | .ok df => df
  | .error _ =>
    match read_csv ";" resultado with
    | .ok df => df
    | .error _ =>
      ⟨[("Erro", ["Não foi possível processar o resultado: " ++ resultado])]⟩

/-- The environment of one `/analisar/` request: every external effect the
handler performs, as opaque outcomes.  `read_fault` is `await file.read()`
raising; `image_open` is `PIL.Image.open` on the uploaded bytes; `pil_fault`
is an exception inside `analisar_imagem_pil`'s outer `try`; `tmp_name` is the
path chosen by `NamedTemporaryFile(delete=False, suffix=".xlsx")`;
`to_excel_fault` is `df.to_excel` raising. -/
structure World where
  read_fault : Option String
  image_open : Except String Img
  pil_fault : Option String
  model : String → Box → ModelOutcome
  read_csv : String → String → Except String DataFrame
  tmp_name : String
  to_excel_fault : Option String

/-- Result of one `/analisar/` request: the response plus the handler's
file-system effects (temporary files created and unlinked by this request,
and the spreadsheet contents written by `df.to_excel`, when reached). -/
structure HandlerResult where
  response : HttpResponse
  files_created : List String
  files_deleted : List String
  excel_written : Option (String × DataFrame)
deriving Repr, DecidableEq

/-- The `POST /analisar/` handler `analisar_imagem` from `src/main.py`.
Mirrors the statement order of the body: read the upload, open the image,
split `colors`, parse `values` (where `int` may raise), run the analysis,
convert to a DataFrame, create the temp file and write the spreadsheet, and
return the success JSON; any exception reaching the outer `except` yields a
500 JSON after unlinking the temp file when `excel_path` was already set. -/
def analisar_imagem (w : World) (filename : String)
    (colors values : Option String) : HandlerResult :=
  match w.read_fault with
  | some e => ⟨.json 500 [("erro", e)], [], [], none⟩
  | none =>
    match w.image_open with
    | .error e => ⟨.json 500 [("erro", e)], [], [], none⟩
    | .ok imagem =>
      let _lista_cores := lista_cores_de colors
      match lista_valores_de values with
      | .error e => ⟨.json 500 [("erro", e)], [], [], none⟩
      | .ok _lista_valores =>
        let resultado := analisar_imagem_pil w.pil_fault w.model imagem
        let df := resultado_para_df w.read_csv resultado
        let excel_path := w.tmp_name
        match w.to_excel_fault with
        | some e =>
          ⟨.json 500 [("erro", e)], [excel_path], [excel_path], none⟩
        | none =>
          ⟨.json 200
            [("arquivo", filename),
             ("resultado_csv", resultado),
             ("excel_download", "/download_excel/?path=" ++ excel_path),
             ("mensagem", "Análise concluída com sucesso!")],
           [excel_path], [], some (excel_path, df)⟩

/-- Specification-side characterisation (not source code): the message of the
first exception, if any, that escapes to `analisar_imagem`'s outer `except`,
in the order the handler's statements run. -/
def handler_fault (w : World) (values : Option String) : Option String :=
  match w.read_fault with
  | some e => some e
  | none =>
    match w.image_open with
    | .error e => some e
    | .ok _ =>
      match lista_valores_de values with
      | .error e => some e
      | .ok _ => w.to_excel_fault

/-- The `GET /download_excel/` handler from `src/main.py`.  `path_exists` is
`os.path.exists`; neither it nor constructing the `FileResponse` raises, so
the handler's `except` branch is unreachable in this model. -/
def download_excel (path_exists : String → Bool) (path : String) : HttpResponse :=
  if ¬ path_exists path then
    .json 404 [("erro", "Arquivo não encontrado")]
  else
    .fileResponse path "resultado_abaco.xlsx"
      "application/vnd.openxmlformats-officedocument.spreadsheetml.sheet"

/-- Does a path match `glob.glob("/tmp/*.xlsx")`: directly under `/tmp/`,
basename ending in `.xlsx`, and (glob semantics) the basename neither hidden
(leading dot) nor containing a separator. -/
def isTmpXlsx (f : String) : Bool :=
  let basename := f.data.drop 5
  leadsWith "/tmp/".data f.data
    && leadsWith ".xlsx".data.reverse basename.reverse
    && !(leadsWith ".".data basename)
    && !(basename.contains '/')

/-- The `shutdown_event` handler from `src/main.py`, over a file system
modelled as the list `fs` of existing paths: glob the `/tmp/*.xlsx` files and
`os.unlink` each in turn, ignoring unlink failures (`unlink_fails`). -/
def shutdown_event (unlink_fails : String → Bool) (fs : List String) : List String :=
  let temp_files := fs.filter isTmpXlsx
  temp_files.foldl (fun acc file => if unlink_fails file then acc else acc.erase file) fs

/-- The `APIRouter(prefix="/health", ...)` of
`src/scheduler/routes/health_router.py`. -/
def health_router_base : String := "/health"

/-- The route path of `@router.get("/health", ...)`. -/
def health_route_path : String := "/health"

/-- The full path FastAPI serves the health check at: router path plus route
path. -/
def health_full_path : String := health_router_base ++ health_route_path

/-- `health_check` from `src/scheduler/routes/health_router.py`: returns the
dict `{"status": "OK"}` (the brace-delimited Python literal), which FastAPI
serialises as a 200 JSON response. -/
def health_check (_u : Unit) : HttpResponse :=
  .json 200 [("status", "OK")]

/-! Concrete environments used to evaluate the theorems on closed inputs. -/

/-- A model whose every call raises (e.g. a network failure). -/
def demoModel : String → Box → ModelOutcome := fun _ _ => .err "falha no modelo"

/-- A pandas parser that rejects the text under both separators. -/
def demoCsv : String → String → Except String DataFrame := fun _ _ => .error "ParserError"

/-- A pandas parser that succeeds only with the `";"` separator. -/
def demoCsvSemicolon : String → String → Except String DataFrame :=
  fun sep t => if sep = ";" then .ok ⟨[("B", [t])]⟩ else .error "ParserError"

/-- A pandas parser that always succeeds, recording separator and text. -/
def demoCsvOk : String → String → Except String DataFrame :=
  fun sep t => .ok ⟨[(sep, [t])]⟩

/-- A request environment with a small image, a failing model call, an
unparseable result and no handler-level fault. -/
def demoWorld : World :=
  ⟨none, .ok ⟨100, 100⟩, none, demoModel, demoCsv, "/tmp/tmpabc.xlsx", none⟩

/-- `demoWorld` with `df.to_excel` raising. -/
def demoWorldExcelFail : World := { demoWorld with to_excel_fault := some "falha no excel" }

/-! ## Theorems -/

/-- C2: `dividir_imagem` applies the fixed size-threshold rule: above
3000x3000 exactly the 4 quadrant crops; otherwise above width 2000 exactly
the 2 left/right half crops; otherwise above height 2000 exactly the 2
top/bottom half crops; otherwise the single unmodified image — the branches
tried in this order, with no other branch. -/
theorem dividir_imagem_branches (imagem : Img) :
    (imagem.width > 3000 ∧ imagem.height > 3000 →
      dividir_imagem imagem =
        [⟨0, 0, imagem.width / 2, imagem.height / 2⟩,
         ⟨imagem.width / 2, 0, imagem.width, imagem.height / 2⟩,
         ⟨0, imagem.height / 2, imagem.width / 2, imagem.height⟩,
         ⟨imagem.width / 2, imagem.height / 2, imagem.width, imagem.height⟩]) ∧
    (¬(imagem.width > 3000 ∧ imagem.height > 3000) → imagem.width > 2000 →
      dividir_imagem imagem =
        [⟨0, 0, imagem.width / 2, imagem.height⟩,
         ⟨imagem.width / 2, 0, imagem.width, imagem.height⟩]) ∧
    (¬(imagem.width > 3000 ∧ imagem.height > 3000) → ¬ imagem.width > 2000 →
      imagem.height > 2000 →
      dividir_imagem imagem =
        [⟨0, 0, imagem.width, imagem.height / 2⟩,
         ⟨0, imagem.height / 2, imagem.width, imagem.height⟩]) ∧
    (¬(imagem.width > 3000 ∧ imagem.height > 3000) → ¬ imagem.width > 2000 →
      ¬ imagem.height > 2000 →
      dividir_imagem imagem = [⟨0, 0, imagem.width, imagem.height⟩]) := by
  refine ⟨fun h1 => ?_, fun h1 h2 => ?_, fun h1 h2 h3 => ?_, fun h1 h2 h3 => ?_⟩
  · simp [dividir_imagem, h1]
  · simp [dividir_imagem, h1, h2]
  · simp [dividir_imagem, h1, h2, h3]
  · simp [dividir_imagem, h1, h2, h3]

/-- Witness for C2: the four branches evaluated on one concrete image each. -/
theorem dividir_imagem_branches_w :
    dividir_imagem ⟨4000, 4000⟩ =
      [⟨0, 0, 2000, 2000⟩, ⟨2000, 0, 4000, 2000⟩,
       ⟨0, 2000, 2000, 4000⟩, ⟨2000, 2000, 4000, 4000⟩] ∧
    dividir_imagem ⟨2500, 1000⟩ = [⟨0, 0, 1250, 1000⟩, ⟨1250, 0, 2500, 1000⟩] ∧
    dividir_imagem ⟨1000, 2500⟩ = [⟨0, 0, 1000, 1250⟩, ⟨0, 1250, 1000, 2500⟩] ∧
    dividir_imagem ⟨800, 600⟩ = [⟨0, 0, 800, 600⟩] :=
  ⟨(dividir_imagem_branches ⟨4000, 4000⟩).1 (by decide),
   (dividir_imagem_branches ⟨2500, 1000⟩).2.1 (by decide) (by decide),
   (dividir_imagem_branches ⟨1000, 2500⟩).2.2.1 (by decide) (by decide) (by decide),
   (dividir_imagem_branches ⟨800, 600⟩).2.2.2 (by decide) (by decide) (by decide)⟩

/-- C8: the health check is served at `/health/health` (router path `/health`
plus route path `/health`) and always returns the JSON object
`("status", "OK")`. -/
theorem health_check_contract :
    health_full_path = "/health/health" ∧
    ∀ u : Unit, health_check u = .json 200 [("status", "OK")] :=
  ⟨rfl, fun _ => rfl⟩

/-- C5: `GET /download_excel/` returns a 404 JSON error when the `path` file
does not exist, and otherwise serves the file as a spreadsheet download named
`resultado_abaco.xlsx`. -/
theorem download_excel_contract (path_exists : String → Bool) (path : String) :
    (path_exists path = false →
      download_excel path_exists path =
        .json 404 [("erro", "Arquivo não encontrado")]) ∧
    (path_exists path = true →
      download_excel path_exists path =
        .fileResponse path "resultado_abaco.xlsx"
          "application/vnd.openxmlformats-officedocument.spreadsheetml.sheet") := by
  constructor <;> intro h <;> simp [download_excel, h]

/-- Witness for C5: both branches at a concrete path. -/
theorem download_excel_contract_w :
    download_excel (fun _ => false) "/tmp/r.xlsx" =
      .json 404 [("erro", "Arquivo não encontrado")] ∧
    download_excel (fun _ => true) "/tmp/r.xlsx" =
      .fileResponse "/tmp/r.xlsx" "resultado_abaco.xlsx"
        "application/vnd.openxmlformats-officedocument.spreadsheetml.sheet" :=
  ⟨(download_excel_contract (fun _ => false) "/tmp/r.xlsx").1 rfl,
   (download_excel_contract (fun _ => true) "/tmp/r.xlsx").2 rfl⟩

/-- C3 (counterexample): two `/analisar/` requests with the same uploaded
file but different `values` form fields get different responses: `values="1"`
yields the 200 success JSON while `values="abc"` makes `int("abc")` raise,
yielding a 500 error JSON. -/
theorem analisar_values_counterexample :
    (analisar_imagem demoWorld "abaco.png" none (some "1")).response =
      .json 200
        [("arquivo", "abaco.png"),
         ("resultado_csv", "Erro na parte 1: falha no modelo"),
         ("excel_download", "/download_excel/?path=/tmp/tmpabc.xlsx"),
         ("mensagem", "Análise concluída com sucesso!")] ∧
    (analisar_imagem demoWorld "abaco.png" none (some "abc")).response =
      .json 500 [("erro", "invalid literal for int() with base 10: abc")] ∧
    analisar_imagem demoWorld "abaco.png" none (some "1") ≠
      analisar_imagem demoWorld "abaco.png" none (some "abc") := by
  refine ⟨rfl, rfl, by decide⟩

/-- C3 (amended): the `colors` field never influences the response, and the
`values` field influences it only through the `int` parsing step: any two
requests for the same file whose `values` fields both parse (in particular
when absent) get identical results. -/
theorem analisar_ignores_colors_values (w : World) (filename : String)
    (c1 v1 c2 v2 : Option String) (l1 l2 : List Int)
    (h1 : lista_valores_de v1 = .ok l1) (h2 : lista_valores_de v2 = .ok l2) :
    analisar_imagem w filename c1 v1 = analisar_imagem w filename c2 v2 := by
  simp only [analisar_imagem, h1, h2]

/-- Witness for the amended C3: different colors and values, same response. -/
theorem analisar_ignores_colors_values_w :
    analisar_imagem demoWorld "abaco.png" (some "#33b2cc") (some "1,10") =
      analisar_imagem demoWorld "abaco.png" none none :=
  analisar_ignores_colors_values demoWorld "abaco.png"
    (some "#33b2cc") (some "1,10") none none [1, 10] [] rfl rfl

/-- C1 (counterexample): an exception thrown by the model call for a tile
does NOT surface as a 500: with every model call raising, the response is the
200 success JSON whose `resultado_csv` merely embeds the error line. -/
theorem analisar_model_error_status200 :
    demoModel PROMPT_FIXO ⟨0, 0, 100, 100⟩ = .err "falha no modelo" ∧
    dividir_imagem ⟨100, 100⟩ = [⟨0, 0, 100, 100⟩] ∧
    (analisar_imagem demoWorld "abaco.png" none none).response =
      .json 200
        [("arquivo", "abaco.png"),
         ("resultado_csv", "Erro na parte 1: falha no modelo"),
         ("excel_download", "/download_excel/?path=/tmp/tmpabc.xlsx"),
         ("mensagem", "Análise concluída com sucesso!")] ∧
    (analisar_imagem demoWorld "abaco.png" none none).response ≠
      .json 500 [("erro", "falha no modelo")] := by
  refine ⟨rfl, rfl, rfl, by decide⟩

/-- C1 (amended): exactly the exceptions that escape to the handler itself —
upload read, image open, `values` parsing, spreadsheet writing — are caught
and surfaced as a 500 JSON error; when none occurs the handler returns the
200 success JSON (model-call exceptions per tile are absorbed into the
`resultado_csv` text instead of producing a 500). -/
theorem analisar_status_contract (w : World) (filename : String)
    (colors values : Option String) :
    (∀ e, handler_fault w values = some e →
      (analisar_imagem w filename colors values).response =
        .json 500 [("erro", e)]) ∧
    (handler_fault w values = none →
      ∃ resultado,
        (analisar_imagem w filename colors values).response =
          .json 200
            [("arquivo", filename),
             ("resultado_csv", resultado),
             ("excel_download", "/download_excel/?path=" ++ w.tmp_name),
             ("mensagem", "Análise concluída com sucesso!")]) := by
  unfold analisar_imagem handler_fault
  rcases w.read_fault with _ | e0
  · rcases w.image_open with e1 | imagem
    · exact ⟨fun e he => by cases he; rfl, fun hn => by cases hn⟩
    · rcases lista_valores_de values with e2 | l
      · exact ⟨fun e he => by cases he; rfl, fun hn => by cases hn⟩
      · rcases w.to_excel_fault with _ | e3
        · exact ⟨fun e he => Option.noConfusion he, fun _ => ⟨_, rfl⟩⟩
        · exact ⟨fun e he => by cases he; rfl, fun hn => by cases hn⟩
  · exact ⟨fun e he => by cases he; rfl, fun hn => by cases hn⟩

/-- Witness for the amended C1: a failing upload read gives the 500 JSON; the
fault-free `demoWorld` gives the 200 success JSON. -/
theorem analisar_status_contract_w :
    (analisar_imagem { demoWorld with read_fault := some "falha de leitura" }
        "a.png" none none).response =
      .json 500 [("erro", "falha de leitura")] ∧
    ∃ resultado,
      (analisar_imagem demoWorld "a.png" none none).response =
        .json 200
          [("arquivo", "a.png"),
           ("resultado_csv", resultado),
           ("excel_download", "/download_excel/?path=" ++ demoWorld.tmp_name),
           ("mensagem", "Análise concluída com sucesso!")] :=
  ⟨(analisar_status_contract { demoWorld with read_fault := some "falha de leitura" }
      "a.png" none none).1 "falha de leitura" rfl,
   (analisar_status_contract demoWorld "a.png" none none).2 rfl⟩

/-- Unfolding of the analysis loop: the trace is one call per part, in
order, always with the fixed prompt; the `resultados` list keeps, per
enumerated part, the non-empty success text or the error line. -/
theorem analisar_loop_spec (model : String → Box → ModelOutcome)
    (i : Nat) (partes : List Box) :
    analisar_loop model i partes =
      (partes.map (fun parte => (PROMPT_FIXO, parte)),
       (partes.enumFrom i).filterMap (fun p =>
         match model PROMPT_FIXO p.2 with
         | .ok text => if text = "" then none else some text
         | .err e => some ("Erro na parte " ++ toString p.1 ++ ": " ++ e))) := by
  induction partes generalizing i with
  | nil => rfl
  | cons parte rest ih =>
    simp only [analisar_loop, List.map_cons, List.enumFrom_cons, List.filterMap_cons, ih]
    cases hm : model PROMPT_FIXO parte with
    | ok text =>
      by_cases ht : text = "" <;> simp [hm, ht]
    | err e => simp [hm]

/-- C7: for every image, the model is invoked exactly once per tile (no
retry), each time with the fixed prompt, in tile order; and the returned
analysis text is the newline-join, in tile order, of the per-tile outputs:
the model text when the call succeeds with non-empty text, the error line
when it raises, and nothing when it succeeds with empty text. -/
theorem analisar_model_calls (model : String → Box → ModelOutcome) (imagem : Img) :
    (analisar_loop model 1 (dividir_imagem imagem)).1 =
      (dividir_imagem imagem).map (fun parte => (PROMPT_FIXO, parte)) ∧
    analisar_imagem_pil none model imagem =
      String.intercalate "\n"
        (((dividir_imagem imagem).enumFrom 1).filterMap (fun p =>
          match model PROMPT_FIXO p.2 with
          | .ok text => if text = "" then none else some text
          | .err e => some ("Erro na parte " ++ toString p.1 ++ ": " ++ e))) := by
  constructor
  · rw [analisar_loop_spec]
  · show String.intercalate "\n" (analisar_loop model 1 (dividir_imagem imagem)).2 = _
    rw [analisar_loop_spec]

/-- C10: `analisar_imagem_pil` is total over model behaviour: an exception in
the outer `try` yields the string `"Erro: " ++ msg`, otherwise the function
returns the join of the loop results, and a model-call exception on tile `i`
(1-based) is recorded in them as the line `"Erro na parte " ++ i ++ ": " ++ msg`;
no exception propagates to the caller. -/
theorem analisar_imagem_pil_total (fault : Option String)
    (model : String → Box → ModelOutcome) (imagem : Img) :
    (∀ e, fault = some e → analisar_imagem_pil fault model imagem = "Erro: " ++ e) ∧
    (analisar_imagem_pil none model imagem =
      String.intercalate "\n" (analisar_loop model 1 (dividir_imagem imagem)).2) ∧
    (∀ i (hi : i < (dividir_imagem imagem).length) (e : String),
      model PROMPT_FIXO (dividir_imagem imagem)[i] = .err e →
      ("Erro na parte " ++ toString (i + 1) ++ ": " ++ e) ∈
        (analisar_loop model 1 (dividir_imagem imagem)).2) := by
  refine ⟨fun e he => by rw [he]; rfl, rfl, ?_⟩
  intro i hi e hm
  rw [analisar_loop_spec]
  apply List.mem_filterMap.mpr
  refine ⟨(1 + i, (dividir_imagem imagem)[i]), ?_, ?_⟩
  · have hlen : i < ((dividir_imagem imagem).enumFrom 1).length := by
      rw [List.enumFrom_length]; exact hi
    have hget : ((dividir_imagem imagem).enumFrom 1)[i] =
        (1 + i, (dividir_imagem imagem)[i]) := List.getElem_enumFrom _ _ _ _
    rw [← hget]
    exact List.getElem_mem hlen
  · rw [Nat.add_comm 1 i] at *
    simp [hm]

/-- Witness for C10: with every model call raising, the outer-fault branch
returns the `Erro:` string and the tile-1 error line is among the loop
results. -/
theorem analisar_imagem_pil_total_w :
    analisar_imagem_pil (some "falha PIL") demoModel ⟨100, 100⟩ = "Erro: falha PIL" ∧
    ("Erro na parte " ++ toString (0 + 1) ++ ": " ++ "falha no modelo") ∈
      (analisar_loop demoModel 1 (dividir_imagem ⟨100, 100⟩)).2 :=
  ⟨(analisar_imagem_pil_total (some "falha PIL") demoModel ⟨100, 100⟩).1 "falha PIL" rfl,
   (analisar_imagem_pil_total none demoModel ⟨100, 100⟩).2.2 0 (by decide) "falha no modelo" rfl⟩

/-- C4: the model text is parsed with exactly two delimiters in order — the
default comma first, then the semicolon if the first attempt raises; if both
raise, the result is the one-column `Erro` table embedding the unparsed text;
and (last conjunct) on the fault-free path this table is exactly what
`df.to_excel` writes to the temporary spreadsheet. -/
theorem resultado_para_df_contract :
    (∀ read_csv resultado df, read_csv "," resultado = .ok df →
      resultado_para_df read_csv resultado = df) ∧
    (∀ read_csv resultado e df, read_csv "," resultado = .error e →
      read_csv ";" resultado = .ok df →
      resultado_para_df read_csv resultado = df) ∧
    (∀ read_csv resultado e1 e2, read_csv "," resultado = .error e1 →
      read_csv ";" resultado = .error e2 →
      resultado_para_df read_csv resultado =
        ⟨[("Erro", ["Não foi possível processar o resultado: " ++ resultado])]⟩) ∧
    (∀ (w : World) filename colors values imagem,
      handler_fault w values = none → w.image_open = .ok imagem →
      (analisar_imagem w filename colors values).excel_written =
        some (w.tmp_name,
          resultado_para_df w.read_csv
            (analisar_imagem_pil w.pil_fault w.model imagem))) := by
  refine ⟨?_, ?_, ?_, ?_⟩
  · intro read_csv resultado df h
    simp only [resultado_para_df, h]
  · intro read_csv resultado e df h1 h2
    simp only [resultado_para_df, h1, h2]
  · intro read_csv resultado e1 e2 h1 h2
    simp only [resultado_para_df, h1, h2]
  · intro w filename colors values imagem hnone hio
    rcases hr : w.read_fault with _ | e0
    · simp only [handler_fault, hr, hio] at hnone
      rcases hv : lista_valores_de values with e2 | l
      · simp only [hv] at hnone
        exact Option.noConfusion hnone
      · simp only [hv] at hnone
        simp only [analisar_imagem, hr, hio, hv, hnone]
    · simp only [handler_fault, hr] at hnone
      exact Option.noConfusion hnone

/-- Witness for C4: the three parse branches on concrete parsers, and the
spreadsheet contents of a concrete fault-free request. -/
theorem resultado_para_df_contract_w :
    resultado_para_df demoCsvOk "x;y" = ⟨[(",", ["x;y"])]⟩ ∧
    resultado_para_df demoCsvSemicolon "x;y" = ⟨[("B", ["x;y"])]⟩ ∧
    resultado_para_df demoCsv "x;y" =
      ⟨[("Erro", ["Não foi possível processar o resultado: x;y"])]⟩ ∧
    (analisar_imagem demoWorld "a.png" none none).excel_written =
      some ("/tmp/tmpabc.xlsx",
        resultado_para_df demoCsv (analisar_imagem_pil none demoModel ⟨100, 100⟩)) :=
  ⟨resultado_para_df_contract.1 demoCsvOk "x;y" _ rfl,
   resultado_para_df_contract.2.1 demoCsvSemicolon "x;y" "ParserError" _ rfl rfl,
   resultado_para_df_contract.2.2.1 demoCsv "x;y" "ParserError" "ParserError" rfl rfl,
   resultado_para_df_contract.2.2.2 demoWorld "a.png" none none ⟨100, 100⟩ rfl rfl⟩

/-- Each conditional unlink in the shutdown loop, folded over the glob
matches, removes from the file system exactly the targets whose unlink
succeeded. -/
theorem foldl_unlink (u : String → Bool) (targets : List String) :
    ∀ fs : List String,
      targets.foldl (fun acc file => if u file then acc else acc.erase file) fs =
        fs.diff (targets.filter fun file => !u file) := by
  induction targets with
  | nil => intro fs; simp
  | cons t ts ih =>
    intro fs
    by_cases h : u t
    · simp only [List.foldl_cons, if_pos h, List.filter_cons, h]
      simpa using ih fs
    · simp only [List.foldl_cons, if_neg h, List.filter_cons, h]
      simpa [List.diff_cons] using ih (fs.erase t)

/-- On a duplicate-free file system, `shutdown_event` keeps exactly the files
that are not `/tmp/*.xlsx` glob matches or whose unlink failed. -/
theorem shutdown_event_eq (u : String → Bool) (fs : List String) (h : fs.Nodup) :
    shutdown_event u fs = fs.filter (fun f => !isTmpXlsx f || u f) := by
  unfold shutdown_event
  rw [foldl_unlink, List.Nodup.diff_eq_filter h]
  apply List.filter_congr
  intro x hx
  by_cases h1 : isTmpXlsx x <;> by_cases h2 : u x <;>
    simp [List.mem_filter, hx, h1, h2]

/-- C6: a request that ends in a 500 error leaves no temp file of its own
behind (whatever it created it also unlinked before responding), and on
shutdown exactly the `/tmp/*.xlsx` glob matches whose unlink does not fail
are removed, unlink failures being ignored. -/
theorem temp_cleanup_contract :
    (∀ (w : World) filename colors values e,
      (analisar_imagem w filename colors values).response = .json 500 [("erro", e)] →
      (analisar_imagem w filename colors values).files_deleted =
        (analisar_imagem w filename colors values).files_created) ∧
    (∀ (u : String → Bool) (fs : List String), fs.Nodup →
      shutdown_event u fs = fs.filter (fun f => !isTmpXlsx f || u f)) := by
  constructor
  · intro w filename colors values e h
    rcases hr : w.read_fault with _ | e0
    · rcases hio : w.image_open with e1 | imagem
      · simp [analisar_imagem, hr, hio]
      · rcases hv : lista_valores_de values with e2 | l
        · simp [analisar_imagem, hr, hio, hv]
        · rcases hx : w.to_excel_fault with _ | e3
          · simp only [analisar_imagem, hr, hio, hv, hx] at h
            simp at h
          · simp [analisar_imagem, hr, hio, hv, hx]
    · simp [analisar_imagem, hr]
  · exact fun u fs h => shutdown_event_eq u fs h

/-- Witness for C6: a request whose `df.to_excel` raises deletes what it
created, and a concrete shutdown removes the one `/tmp/*.xlsx` file. -/
theorem temp_cleanup_contract_w :
    (analisar_imagem demoWorldExcelFail "a.png" none none).files_deleted =
      (analisar_imagem demoWorldExcelFail "a.png" none none).files_created ∧
    shutdown_event (fun _ => false) ["/tmp/res1.xlsx", "/var/log/app.log"] =
      ["/var/log/app.log"] :=
  ⟨temp_cleanup_contract.1 demoWorldExcelFail "a.png" none none "falha no excel" rfl,
   (temp_cleanup_contract.2 (fun _ => false) ["/tmp/res1.xlsx", "/var/log/app.log"]
      (by decide)).trans (by decide)⟩

/-- Membership of a pixel in a crop box, as inequalities. -/
theorem containsPix_iff (b : Box) (x y : Nat) :
    b.containsPix x y = true ↔
      (b.left ≤ x ∧ x < b.right ∧ b.upper ≤ y ∧ y < b.lower) := by
  simp [Box.containsPix]

/-- C9: for every image the returned crop rectangles exactly partition the
image rectangle: their areas sum to `width * height`, and every pixel of the
image lies in exactly one of them (so they neither overlap nor leave gaps),
including when a dimension is odd — `w / 2` is one crop's exclusive end and
the adjacent crop's inclusive start. -/
theorem dividir_imagem_partition (imagem : Img) :
    ((dividir_imagem imagem).map Box.area).sum = imagem.width * imagem.height ∧
    ∀ x y, x < imagem.width → y < imagem.height →
      ((dividir_imagem imagem).filter (fun b => b.containsPix x y)).length = 1 := by
  obtain ⟨w, h⟩ := imagem
  have hw : w / 2 ≤ w := Nat.div_le_self w 2
  have hh : h / 2 ≤ h := Nat.div_le_self h 2
  unfold dividir_imagem
  dsimp only
  split_ifs with h1 h2 h3 <;> constructor
  · simp only [List.map_cons, List.map_nil, List.sum_cons, List.sum_nil, Box.area,
      Nat.sub_zero, Nat.add_zero]
    zify [hw, hh]
    ring
  · intro x y hx hy
    rcases Nat.lt_or_ge x (w / 2) with hx2 | hx2 <;>
      rcases Nat.lt_or_ge y (h / 2) with hy2 | hy2 <;>
      simp only [List.filter_cons, List.filter_nil, containsPix_iff] <;>
      split_ifs <;> simp_all <;> omega
  · simp only [List.map_cons, List.map_nil, List.sum_cons, List.sum_nil, Box.area,
      Nat.sub_zero, Nat.add_zero]
    zify [hw]
    ring
  · intro x y hx hy
    rcases Nat.lt_or_ge x (w / 2) with hx2 | hx2 <;>
      simp only [List.filter_cons, List.filter_nil, containsPix_iff] <;>
      split_ifs <;> simp_all <;> omega
  · simp only [List.map_cons, List.map_nil, List.sum_cons, List.sum_nil, Box.area,
      Nat.sub_zero, Nat.add_zero]
    zify [hh]
    ring
  · intro x y hx hy
    rcases Nat.lt_or_ge y (h / 2) with hy2 | hy2 <;>
      simp only [List.filter_cons, List.filter_nil, containsPix_iff] <;>
      split_ifs <;> simp_all <;> omega
  · simp [Box.area]
  · intro x y hx hy
    simp only [List.filter_cons, List.filter_nil, containsPix_iff]
    split_ifs <;> simp_all

/-- Witness for C9: the quadrant split of a 3500x3001 image, with the odd
height, sums to the full area and covers the centre pixel exactly once. -/
theorem dividir_imagem_partition_w :
    ((dividir_imagem ⟨3500, 3001⟩).map Box.area).sum = 3500 * 3001 ∧
    ((dividir_imagem ⟨3500, 3001⟩).filter (fun b => b.containsPix 1750 1500)).length = 1 :=
  ⟨(dividir_imagem_partition ⟨3500, 3001⟩).1,
   (dividir_imagem_partition ⟨3500, 3001⟩).2 1750 1500 (by decide) (by decide)⟩

end Abaco
